import Mathlib

/-!
Shallow embedding of the BoxBreathing application core (src/App.tsx and
src/types.ts): the phase state machine, the session controller with its
three timers, the stats store and the localStorage persistence, together
with theorems checking the specification's claims about them.

Host timers (setTimeout / setInterval / clearInterval) are modelled by an
explicit list of live timer entries with fresh integer ids, exactly
mirroring which handles the source stores in refs and which it discards.
React state updates and the effects that react to them are modelled by
explicit state passing: each timer callback is a function on the whole
application state, and an effect that the source declares on some state
fields is applied right after the update of those fields.
-/

namespace BoxBreathing

/-- The Phase enum from src/types.ts.  In TypeScript it is a string-valued
enum; `phaseString` below gives each constructor its runtime string value. -/
inductive Phase where
  | Inhale
  | HoldIn
  | Exhale
  | HoldOut
  | Idle
deriving DecidableEq, Repr

/-- Runtime string value of each Phase enum member (src/types.ts lines 2-8). -/
def phaseString : Phase → String
  | Phase.Inhale => "inhale"
  | Phase.HoldIn => "holdIn"
  | Phase.Exhale => "exhale"
  | Phase.HoldOut => "holdOut"
  | Phase.Idle => "idle"

/-- The five runtime string values of the Phase enum. -/
def phaseStrings : List String := ["inhale", "holdIn", "exhale", "holdOut", "idle"]

/-- The Stats record from src/types.ts lines 10-13.  JavaScript numbers are
modelled as integers (all arithmetic on them in the source is integer
increments). -/
structure Stats where
  sessions : Int
  totalCycles : Int
deriving DecidableEq, Repr

/-- Modelled from the spec: the constant PHASE_DURATION_S is imported from
'./constants', a file that is not under src/; the spec fixes the per-phase
duration at 4 seconds ("the constant phase duration (4 seconds, matching
the box in box breathing)"). -/
def PHASE_DURATION_S : Nat := 4

/-- Model of the host JSON value space, as needed for the two localStorage
cells the app uses.  JSON.parse and JSON.stringify are host primitives, so a
stored string is modelled by its parse outcome (`ParseOutcome` below).
The app never inspects a parsed value structurally, so objects other than
the one Stats shape it serializes are collapsed into `jobjOther`. -/
inductive Json where
  | jnull
  | jbool (b : Bool)
  | jnum (n : Int)
  | jstr (s : String)
  | jobjStats (sessions totalCycles : Int)
  | jobjOther
deriving DecidableEq, Repr

/-- JSON.stringify of a Stats value: the object with the two fields the app
writes (src/App.tsx line 259 stringifies the new sessions/totalCycles
record). -/
def statsToJson (st : Stats) : Json :=
  Json.jobjStats st.sessions st.totalCycles

/-- Decoder picking a Stats value out of a Json value when it has exactly
the serialized shape; used to state round-trip properties. -/
def jsonAsStats : Json → Option Stats
  | Json.jobjStats a b => some ⟨a, b⟩
  | _ => none

/-- The JSON.parse outcome of a stored string: either JSON.parse throws on
it (`thrown`, a malformed string) or it parses to a Json value. -/
inductive ParseOutcome where
  | thrown
  | value (j : Json)
deriving DecidableEq, Repr

/-- The localStorage slice the app touches: the 'breathing_stats' key and
the 'theme' key (src/App.tsx lines 259, 320, 325, 349); `none` when nothing
is stored under the key. -/
structure Store where
  statsCell : Option ParseOutcome
  themeCell : Option String
deriving DecidableEq, Repr

/-- The kinds of host timers the app arms (src/App.tsx lines 305-316):
the 100 ms initial setTimeout, the 4 s phase-advance interval, the 1 s
elapsed-time interval and the 1 s countdown interval. -/
inductive TimerKind where
  | initialTimeout
  | phaseTick
  | elapsedTick
  | countdownTick
deriving DecidableEq, Repr

/-- A live host timer: its id (the value setTimeout/setInterval returned)
and its kind. -/
structure TimerEntry where
  id : Nat
  kind : TimerKind
deriving DecidableEq, Repr

/-- The application state: the React state hooks of App (src/App.tsx lines
133-144), the three timer refs (lines 149-151), the localStorage slice, the
set of live host timers, a fresh-id counter for the host, and a ghost
counter `commitCount` recording how many Stats commits have been performed
(it affects nothing and lets theorems count commits). -/
structure AppState where
  phase : Phase
  isRunning : Bool
  duration : Int
  elapsedTime : Nat
  cycleCount : Nat
  phaseCountdown : Nat
  language : String
  isMuted : Bool
  theme : String
  stats : Stats
  isGuided : Bool
  phaseTimerRef : Option Nat
  sessionTimerRef : Option Nat
  countdownTimerRef : Option Nat
  store : Store
  live : List TimerEntry
  nextId : Nat
  commitCount : Nat
deriving DecidableEq, Repr

/-- The state right after App mounts with an empty localStorage: the
useState initial values of src/App.tsx lines 133-144, no timers armed. -/
def initialState : AppState where
  phase := Phase.Idle
  isRunning := false
  duration := 0
  elapsedTime := 0
  cycleCount := 0
  phaseCountdown := PHASE_DURATION_S
  language := "en"
  isMuted := false
  theme := "light"
  stats := ⟨0, 0⟩
  isGuided := false
  phaseTimerRef := none
  sessionTimerRef := none
  countdownTimerRef := none
  store := ⟨none, none⟩
  live := []
  nextId := 0
  commitCount := 0

/-- Host `setInterval`/`setTimeout`: arm a timer of the given kind and
return its fresh id. -/
def setTimer (k : TimerKind) (s : AppState) : Nat × AppState :=
  (s.nextId, { s with live := s.live ++ [⟨s.nextId, k⟩], nextId := s.nextId + 1 })

/-- Host `clearInterval`/`clearTimeout` on an optional stored handle: remove
the timer with that id from the live set; a `none` handle (the source's
`!== undefined` guard, src/App.tsx lines 249-251) clears nothing. -/
def clearId (i : Option Nat) (l : List TimerEntry) : List TimerEntry :=
  match i with
  | some id => l.filter (fun t => t.id ≠ id)
  | none => l

/-- advancePhase (src/App.tsx lines 230-243): the phase transition switch;
on HoldOut it also increments cycleCount.  The source's `default` branch is
unreachable for the five enum constructors; `advanceString` below models the
switch on raw strings, where the default branch is reachable. -/
def advancePhase (s : AppState) : AppState :=
  match s.phase with
  | Phase.Idle => { s with phase := Phase.Inhale }
  | Phase.Inhale => { s with phase := Phase.HoldIn }
  | Phase.HoldIn => { s with phase := Phase.Exhale }
  | Phase.Exhale => { s with phase := Phase.HoldOut }
  | Phase.HoldOut => { s with phase := Phase.Inhale, cycleCount := s.cycleCount + 1 }

/-- The same switch (src/App.tsx lines 232-241) on the runtime string values
of the string-valued enum, with the source's `default: return Phase.Inhale`
branch for any other string. -/
def advanceString (p : String) : String :=
  if p = "idle" then "inhale"
  else if p = "inhale" then "holdIn"
  else if p = "holdIn" then "exhale"
  else if p = "exhale" then "holdOut"
  else if p = "holdOut" then "inhale"
  else "inhale"

/-- The Stats commit inside stopSession (src/App.tsx lines 254-261): build
the incremented Stats, write its JSON serialization under the
'breathing_stats' key, and install it as the new stats state.  The ghost
commitCount records the commit. -/
def commitStats (s : AppState) : AppState :=
  let newStats : Stats := ⟨s.stats.sessions + 1, s.stats.totalCycles + (s.cycleCount : Int)⟩
  { s with
    stats := newStats
    store := { s.store with statsCell := some (ParseOutcome.value (statsToJson newStats)) }
    commitCount := s.commitCount + 1 }

/-- stopSession (src/App.tsx lines 245-266): set isRunning false and phase
Idle; clear the three stored interval handles (the pending initial
setTimeout has no stored handle, so it is not cleared); if elapsedTime > 0,
commit a Stats update; finally zero elapsedTime, duration and cycleCount.
The three clearInterval calls touch only the live timer set and the refs are
never reassigned, so they are taken in one pass over the live list. -/
def stopSession (s : AppState) : AppState :=
  let cleared := clearId s.countdownTimerRef (clearId s.sessionTimerRef
    (clearId s.phaseTimerRef s.live))
  let s1 := { s with isRunning := false, phase := Phase.Idle, live := cleared }
  let s2 := if s1.elapsedTime > 0 then commitStats s1 else s1
  { s2 with elapsedTime := 0, duration := 0, cycleCount := 0 }

/-- The auto-stop effect (src/App.tsx lines 268-274): whenever isRunning
and elapsedTime ≥ duration, stop the session.  It is applied right after
any update of its dependencies (elapsedTime, duration, isRunning). -/
def autoStopEffect (s : AppState) : AppState :=
  if s.isRunning ∧ (s.elapsedTime : Int) ≥ s.duration then stopSession s else s

/-- startSession (src/App.tsx lines 296-317): set duration to mins*60,
reset elapsedTime/cycleCount, set isRunning, phase Idle, countdown to
PHASE_DURATION_S; then arm the 100 ms setTimeout (its handle is discarded
by the source), the 1 s elapsed-time interval (handle in sessionTimerRef)
and the 1 s countdown interval (handle in countdownTimerRef).  The
phase-advance interval is armed later, inside the timeout callback. -/
def startSession (mins : Int) (s : AppState) : AppState :=
  let totalSeconds := mins * 60
  let s0 := { s with
    duration := totalSeconds
    elapsedTime := 0
    cycleCount := 0
    isRunning := true
    phase := Phase.Idle
    phaseCountdown := PHASE_DURATION_S }
  let armed1 := setTimer TimerKind.initialTimeout s0
  let armed2 := setTimer TimerKind.elapsedTick armed1.2
  let s2 := { armed2.2 with sessionTimerRef := some armed2.1 }
  let armed3 := setTimer TimerKind.countdownTick s2
  { armed3.2 with countdownTimerRef := some armed3.1 }

/-- The countdown interval body (src/App.tsx line 315):
`c => (c > 1 ? c - 1 : PHASE_DURATION_S)`. -/
def countdownStep (c : Nat) : Nat :=
  if c > 1 then c - 1 else PHASE_DURATION_S

/-- Run the body of a live timer (the timer is assumed armed; `fireKind`
checks that).  The initial timeout (src/App.tsx lines 305-308) is one-shot:
it leaves the live set, runs advancePhase and arms the phase interval,
storing its handle in phaseTimerRef.  The elapsed tick (lines 310-312)
increments elapsedTime and, since elapsedTime is a dependency of the
auto-stop effect, that effect runs right after.  The countdown tick (lines
314-316) applies countdownStep.  The phase tick runs advancePhase. -/
def fireTimer (t : TimerEntry) (s : AppState) : AppState :=
  match t.kind with
  | TimerKind.initialTimeout =>
      let s1 := { s with live := s.live.filter (fun u => u.id ≠ t.id) }
      let s2 := advancePhase s1
      let armed := setTimer TimerKind.phaseTick s2
      { armed.2 with phaseTimerRef := some armed.1 }
  | TimerKind.phaseTick => advancePhase s
  | TimerKind.elapsedTick => autoStopEffect { s with elapsedTime := s.elapsedTime + 1 }
  | TimerKind.countdownTick => { s with phaseCountdown := countdownStep s.phaseCountdown }

/-- Fire the (first) live timer of the given kind, if any is armed: a
cancelled timer never fires. -/
def fireKind (k : TimerKind) (s : AppState) : AppState :=
  match s.live.find? (fun t => t.kind = k) with
  | some t => fireTimer t s
  | none => s

/-- One wall-clock second `sec` of a running session, with the firing order
the arming times induce: the elapsed tick and the countdown tick fire at
second boundaries (armed at time 0, in that arming order); the phase
interval was armed at 0.1 s inside the initial timeout, so on multiples of
4 it fires 0.1 s after the two one-second ticks. -/
def secondBlock (sec : Nat) (s : AppState) : AppState :=
  let s1 := fireKind TimerKind.elapsedTick s
  let s2 := fireKind TimerKind.countdownTick s1
  if sec % 4 = 0 then fireKind TimerKind.phaseTick s2 else s2

/-- Run `n` consecutive seconds starting at wall-clock second `sec`. -/
def runFrom (sec : Nat) : Nat → AppState → AppState
  | 0, s => s
  | n + 1, s => runFrom (sec + 1) n (secondBlock sec s)

/-- The canonical trace of a session: startSession(mins) (followed by its
effects), the initial timeout firing at 0.1 s, then `nSeconds` seconds of
timer firings. -/
def sessionTrace (mins : Int) (nSeconds : Nat) (s : AppState) : AppState :=
  let s1 := autoStopEffect (startSession mins s)
  let s2 := fireKind TimerKind.initialTimeout s1
  runFrom 1 nSeconds s2

/-- Outcome of the startup stats load: either the effect threw (an uncaught
JSON.parse exception) or the stats state ends up holding the given JSON
value. -/
inductive LoadOutcome where
  | threw
  | statsState (j : Json)
deriving DecidableEq, Repr

/-- The stats branch of the startup load effect (src/App.tsx lines
320-323): with nothing stored, the stats state keeps its initial zero
value; with a stored string, `setStats(JSON.parse(savedStats))` parses it
(the parse exception of a malformed string propagates, there is no
try/catch) and installs the parsed value without validation. -/
def loadStats (cell : Option ParseOutcome) : LoadOutcome :=
  match cell with
  | none => LoadOutcome.statsState (statsToJson ⟨0, 0⟩)
  | some ParseOutcome.thrown => LoadOutcome.threw
  | some (ParseOutcome.value j) => LoadOutcome.statsState j

/-- toggleTheme (src/App.tsx line 352) together with the theme effect
(lines 343-350) that writes the new theme to localStorage. -/
def toggleTheme (s : AppState) : AppState :=
  let t := if s.theme = "light" then "dark" else "light"
  { s with theme := t, store := { s.store with themeCell := some t } }

/-- toggleLanguage (src/App.tsx line 353). -/
def toggleLanguage (s : AppState) : AppState :=
  { s with language := if s.language = "en" then "ru" else "en" }

/-- toggleMute (src/App.tsx line 354). -/
def toggleMute (s : AppState) : AppState :=
  { s with isMuted := !s.isMuted }

/-- toggleGuided (src/App.tsx line 355). -/
def toggleGuided (s : AppState) : AppState :=
  { s with isGuided := !s.isGuided }

/-- User-level operations for stating order-independence of Stats commits:
completing a session that ends with the given cycle count, or toggling a
preference. -/
inductive UserOp where
  | completeSession (cycles : Nat)
  | opToggleTheme
  | opToggleLanguage
  | opToggleMute
  | opToggleGuided
deriving DecidableEq, Repr

/-- A state mid-session about to be stopped: running, with positive elapsed
time and the given cycle count (the concrete elapsed time and phase are
irrelevant to the Stats commit). -/
def midSession (cycles : Nat) (s : AppState) : AppState :=
  { s with isRunning := true, phase := Phase.Inhale, elapsedTime := 1, cycleCount := cycles }

/-- Apply one user-level operation; completing a session is stopSession on
a mid-session state with that cycle count. -/
def applyOp (op : UserOp) (s : AppState) : AppState :=
  match op with
  | UserOp.completeSession c => stopSession (midSession c s)
  | UserOp.opToggleTheme => toggleTheme s
  | UserOp.opToggleLanguage => toggleLanguage s
  | UserOp.opToggleMute => toggleMute s
  | UserOp.opToggleGuided => toggleGuided s

/-- Run a list of user-level operations in order. -/
def runOps (l : List UserOp) (s : AppState) : AppState :=
  l.foldl (fun s op => applyOp op s) s

/-- The cycle count of a completed-session operation, none for toggles. -/
def opCycles : UserOp → Option Nat
  | UserOp.completeSession c => some c
  | _ => none

/-- Phase reached after n advances past Idle: the four-phase cycle. -/
def cyclePhase (n : Nat) : Phase :=
  match n % 4 with
  | 0 => Phase.Inhale
  | 1 => Phase.HoldIn
  | 2 => Phase.Exhale
  | _ => Phase.HoldOut

/-- Closed form of the canonical 5-minute-session trace state after `k`
seconds, for 0 ≤ k ≤ 299: ids 0 (timeout, already fired), 1 (elapsed
interval), 2 (countdown interval), 3 (phase interval) have been handed out;
the phase interval has fired at each elapsed multiple of 4 seconds, the
countdown has wrapped with period 4. -/
def midState (k : Nat) : AppState :=
  { initialState with
    phase := cyclePhase ((k / 4) % 4)
    isRunning := true
    duration := 300
    elapsedTime := k
    cycleCount := k / 4 / 4
    phaseCountdown := 4 - k % 4
    phaseTimerRef := some 3
    sessionTimerRef := some 1
    countdownTimerRef := some 2
    live := [⟨1, TimerKind.elapsedTick⟩, ⟨2, TimerKind.countdownTick⟩, ⟨3, TimerKind.phaseTick⟩]
    nextId := 4 }

/-- The state after the canonical 5-minute session auto-stops at second
300: one Stats commit of 1 session and 18 cycles, all timers cancelled,
session fields zeroed, stale timer ids left in the refs. -/
def stoppedState : AppState :=
  { initialState with
    phaseCountdown := 1
    stats := ⟨1, 18⟩
    phaseTimerRef := some 3
    sessionTimerRef := some 1
    countdownTimerRef := some 2
    store := ⟨some (ParseOutcome.value (Json.jobjStats 1 18)), none⟩
    nextId := 4
    commitCount := 1 }

/-- A concrete mid-session running state used as a counterexample input. -/
def midRunState : AppState :=
  { initialState with
    isRunning := true
    duration := 300
    elapsedTime := 17
    cycleCount := 3
    phase := Phase.Exhale
    phaseCountdown := 2
    phaseTimerRef := some 3
    sessionTimerRef := some 1
    countdownTimerRef := some 2
    live := [⟨1, TimerKind.elapsedTick⟩, ⟨2, TimerKind.countdownTick⟩, ⟨3, TimerKind.phaseTick⟩]
    nextId := 4 }

section PhaseSequencer

/-- After 4k+1 advances from the initial Idle state the phase is back at
Inhale and exactly k cycles have been counted. -/
lemma advancePhase_iterate_cycle (k : Nat) :
    advancePhase^[4 * k + 1] initialState =
      { initialState with phase := Phase.Inhale, cycleCount := k } := by
  induction k with
  | zero => rfl
  | succ k ih =>
    have h : 4 * (k + 1) + 1 = 4 + (4 * k + 1) := by ring
    rw [h, Function.iterate_add_apply, ih]
    rfl

/-- Phase and cycle count after n+1 advances from Idle, in closed form. -/
lemma advancePhase_iterate_closed (n : Nat) :
    (advancePhase^[n + 1] initialState).phase = cyclePhase n ∧
    (advancePhase^[n + 1] initialState).cycleCount = n / 4 := by
  have h : n + 1 = n % 4 + (4 * (n / 4) + 1) := by omega
  rw [h, Function.iterate_add_apply, advancePhase_iterate_cycle]
  rcases (show n % 4 = 0 ∨ n % 4 = 1 ∨ n % 4 = 2 ∨ n % 4 = 3 by omega) with
    h0 | h0 | h0 | h0 <;>
    rw [h0] <;> unfold cyclePhase <;> rw [h0] <;> exact ⟨rfl, rfl⟩

/-- C1: advancePhase maps Idle to Inhale, Inhale to HoldIn, HoldIn to
Exhale, Exhale to HoldOut and HoldOut to Inhale; the string-level switch
maps any other string to "inhale"; the cycle count is incremented exactly
on the HoldOut step; hence from Idle the phase sequence is Inhale, HoldIn,
Exhale, HoldOut, Inhale, … and after n advances exactly (n-1)/4 cycles have
been counted — one per four advances after the first. -/
theorem advancePhase_spec :
    (∀ s : AppState,
      (advancePhase { s with phase := Phase.Idle }).phase = Phase.Inhale ∧
      (advancePhase { s with phase := Phase.Inhale }).phase = Phase.HoldIn ∧
      (advancePhase { s with phase := Phase.HoldIn }).phase = Phase.Exhale ∧
      (advancePhase { s with phase := Phase.Exhale }).phase = Phase.HoldOut ∧
      (advancePhase { s with phase := Phase.HoldOut }).phase = Phase.Inhale ∧
      (advancePhase s).cycleCount =
        (if s.phase = Phase.HoldOut then s.cycleCount + 1 else s.cycleCount)) ∧
    (∀ p : String, p ∉ phaseStrings → advanceString p = "inhale") ∧
    (∀ n : Nat, (advancePhase^[n + 1] initialState).phase = cyclePhase n) ∧
    (∀ n : Nat, (advancePhase^[n] initialState).cycleCount = (n - 1) / 4) := by
  refine ⟨?_, ?_, fun n => (advancePhase_iterate_closed n).1, ?_⟩
  · intro s
    refine ⟨rfl, rfl, rfl, rfl, rfl, ?_⟩
    cases h : s.phase <;> simp [advancePhase, h]
  · intro p hp
    simp only [phaseStrings, List.mem_cons, List.not_mem_nil, or_false, not_or] at hp
    obtain ⟨h1, h2, h3, h4, h5⟩ := hp
    simp [advanceString, h1, h2, h3, h4, h5]
  · intro n
    cases n with
    | zero => rfl
    | succ m =>
      rw [(advancePhase_iterate_closed m).2]
      congr 1

/-- Witness for C1 at concrete inputs: the unknown string "bogus" and the
sequence after 9 advances. -/
theorem advancePhase_spec_witness :
    "bogus" ∉ phaseStrings ∧ advanceString "bogus" = "inhale" ∧
    (advancePhase^[9] initialState).phase = cyclePhase 8 ∧
    (advancePhase^[9] initialState).cycleCount = (9 - 1) / 4 :=
  ⟨by decide, advancePhase_spec.2.1 "bogus" (by decide),
    advancePhase_spec.2.2.1 8, advancePhase_spec.2.2.2 9⟩

end PhaseSequencer

section Countdown

/-- The countdown invariant 1 ≤ c ≤ PHASE_DURATION_S is preserved by every
firing, starting from the initial value PHASE_DURATION_S. -/
lemma countdown_invariant (n : Nat) :
    1 ≤ countdownStep^[n] PHASE_DURATION_S ∧
      countdownStep^[n] PHASE_DURATION_S ≤ PHASE_DURATION_S := by
  induction n with
  | zero => exact ⟨by norm_num [PHASE_DURATION_S], le_refl _⟩
  | succ n ih =>
    rw [Function.iterate_succ_apply']
    obtain ⟨h1, h2⟩ := ih
    unfold countdownStep PHASE_DURATION_S at *
    split <;> omega

/-- C9: each countdown firing decrements phaseCountdown by 1 when it is
above 1 and wraps it to PHASE_DURATION_S exactly when it would otherwise
reach 0; from the session-start value PHASE_DURATION_S the invariant
1 ≤ phaseCountdown ≤ PHASE_DURATION_S holds after every firing and the
value 0 is never taken. -/
theorem countdownStep_spec :
    (∀ c : Nat, 1 < c → countdownStep c = c - 1) ∧
    countdownStep 1 = PHASE_DURATION_S ∧
    (∀ n : Nat, 1 ≤ countdownStep^[n] PHASE_DURATION_S ∧
      countdownStep^[n] PHASE_DURATION_S ≤ PHASE_DURATION_S) ∧
    (∀ n : Nat, countdownStep^[n] PHASE_DURATION_S ≠ 0) := by
  refine ⟨fun c hc => by simp [countdownStep, hc], rfl, countdown_invariant, fun n => ?_⟩
  have := (countdown_invariant n).1
  omega

/-- Witness for C9 at concrete inputs: a firing at value 3 and the value
after 7 firings. -/
theorem countdownStep_spec_witness :
    countdownStep 3 = 3 - 1 ∧
    (1 ≤ countdownStep^[7] PHASE_DURATION_S ∧
      countdownStep^[7] PHASE_DURATION_S ≤ PHASE_DURATION_S) ∧
    countdownStep^[7] PHASE_DURATION_S ≠ 0 :=
  ⟨countdownStep_spec.1 3 (by decide), countdownStep_spec.2.2.1 7,
    countdownStep_spec.2.2.2 7⟩

end Countdown

section StopStart

/-- Filtering a list twice with the same predicate equals filtering once. -/
lemma filter_self_idem (p : TimerEntry → Bool) (l : List TimerEntry) :
    (l.filter p).filter p = l.filter p := by
  induction l with
  | nil => rfl
  | cons a t ih =>
    cases hpa : p a <;> simp [List.filter_cons, hpa, ih]

/-- Two filters commute. -/
lemma filter_swap (p q : TimerEntry → Bool) (l : List TimerEntry) :
    (l.filter q).filter p = (l.filter p).filter q := by
  induction l with
  | nil => rfl
  | cons a t ih =>
    cases hpa : p a <;> cases hqa : q a <;> simp [List.filter_cons, hpa, hqa, ih]

/-- Clearing the same handle twice equals clearing it once. -/
lemma clearId_self (i : Option Nat) (l : List TimerEntry) :
    clearId i (clearId i l) = clearId i l := by
  cases i with
  | none => rfl
  | some id => exact filter_self_idem _ l

/-- Clearing two handles commutes. -/
lemma clearId_swap (i j : Option Nat) (l : List TimerEntry) :
    clearId i (clearId j l) = clearId j (clearId i l) := by
  cases i with
  | none => rfl
  | some a =>
    cases j with
    | none => rfl
    | some b => exact filter_swap _ _ l

/-- Clearing the three stored handles a second time changes nothing. -/
lemma clearChain_idem (r1 r2 r3 : Option Nat) (l : List TimerEntry) :
    clearId r3 (clearId r2 (clearId r1 (clearId r3 (clearId r2 (clearId r1 l))))) =
      clearId r3 (clearId r2 (clearId r1 l)) := by
  rw [clearId_swap r1 r3, clearId_swap r1 r2, clearId_self,
    clearId_swap r2 r3, clearId_self, clearId_self]

/-- C6: stopSession is idempotent — a second stop right after a first one
reproduces exactly the same state, the end state has running=false,
phase=Idle and zeroed elapsed/duration/cycle fields, and across the two
calls at most one Stats commit is performed. -/
theorem stopSession_idempotent :
    ∀ s : AppState,
      stopSession (stopSession s) = stopSession s ∧
      (stopSession s).isRunning = false ∧
      (stopSession s).phase = Phase.Idle ∧
      (stopSession s).elapsedTime = 0 ∧
      (stopSession s).duration = 0 ∧
      (stopSession s).cycleCount = 0 ∧
      (stopSession (stopSession s)).commitCount ≤ s.commitCount + 1 := by
  intro s
  have heq : stopSession (stopSession s) = stopSession s := by
    by_cases h : s.elapsedTime > 0 <;>
      simp [stopSession, commitStats, h, clearChain_idem]
  have hrest : (stopSession s).isRunning = false ∧ (stopSession s).phase = Phase.Idle := by
    by_cases h : s.elapsedTime > 0 <;> simp [stopSession, commitStats, h]
  refine ⟨heq, hrest.1, hrest.2, rfl, rfl, rfl, ?_⟩
  rw [heq]
  by_cases h : s.elapsedTime > 0 <;> simp [stopSession, commitStats, h]

/-- C7: stopping with elapsedSeconds = 0 commits nothing — the in-memory
Stats, the persisted store and the ghost commit counter are unchanged,
while the session fields are still reset. -/
theorem stopSession_zero_elapsed (s : AppState) (h : s.elapsedTime = 0) :
    (stopSession s).stats = s.stats ∧
    (stopSession s).store = s.store ∧
    (stopSession s).commitCount = s.commitCount ∧
    (stopSession s).isRunning = false ∧
    (stopSession s).phase = Phase.Idle ∧
    (stopSession s).elapsedTime = 0 ∧
    (stopSession s).duration = 0 ∧
    (stopSession s).cycleCount = 0 := by
  simp [stopSession, h]

/-- Witness for C7: stopping a freshly started session (elapsed still 0)
leaves Stats, store and commit count untouched. -/
theorem stopSession_zero_elapsed_witness :
    (startSession 5 initialState).elapsedTime = 0 ∧
    (stopSession (startSession 5 initialState)).stats =
      (startSession 5 initialState).stats ∧
    (stopSession (startSession 5 initialState)).store =
      (startSession 5 initialState).store ∧
    (stopSession (startSession 5 initialState)).commitCount =
      (startSession 5 initialState).commitCount :=
  ⟨by decide, (stopSession_zero_elapsed (startSession 5 initialState) (by decide)).1,
    (stopSession_zero_elapsed (startSession 5 initialState) (by decide)).2.1,
    (stopSession_zero_elapsed (startSession 5 initialState) (by decide)).2.2.1⟩

/-- C3 counterexample: calling startSession while a session is Running is
not a no-op — on a concrete running state it changes the state (elapsed
time is reset from 17 to 0) and arms three new triggers. -/
theorem startSession_not_noop :
    midRunState.isRunning = true ∧
    startSession 10 midRunState ≠ midRunState ∧
    (startSession 10 midRunState).elapsedTime = 0 ∧
    (startSession 10 midRunState).live.length = midRunState.live.length + 3 := by
  decide

/-- C3 amended: startSession performs no Running check of its own (the
no-op exists only at the UI layer, where the duration selector is disabled
and not rendered while Running); invoked while Running it resets
duration/elapsed/cycle/phase/countdown and arms three new triggers without
cancelling the previously armed ones, leaving Stats untouched. -/
theorem startSession_while_running (s : AppState) (m : Int) (h : s.isRunning = true) :
    (startSession m s).isRunning = true ∧
    (startSession m s).duration = m * 60 ∧
    (startSession m s).elapsedTime = 0 ∧
    (startSession m s).cycleCount = 0 ∧
    (startSession m s).phase = Phase.Idle ∧
    (startSession m s).phaseCountdown = PHASE_DURATION_S ∧
    (startSession m s).live.length = s.live.length + 3 ∧
    (startSession m s).stats = s.stats := by
  simp [startSession, setTimer]

/-- Witness for C3's amended statement at the concrete running state. -/
theorem startSession_while_running_witness :
    midRunState.isRunning = true ∧
    (startSession 10 midRunState).duration = 10 * 60 ∧
    (startSession 10 midRunState).live.length = midRunState.live.length + 3 :=
  ⟨by decide, (startSession_while_running midRunState 10 (by decide)).2.1,
    (startSession_while_running midRunState 10 (by decide)).2.2.2.2.2.2.1⟩

/-- C2 (code-bug evidence): startSession(0) auto-stops at once, so stop()
returns with the 100 ms initial setTimeout still pending (its handle was
never stored, so stopSession cannot cancel it); when it then fires — after
stop() has returned — it advances the phase from Idle to Inhale and arms a
brand-new phase-advance interval that nothing ever cancels. -/
theorem pending_timeout_fires_after_stop :
    ((autoStopEffect (startSession 0 initialState)).isRunning = false) ∧
    ((autoStopEffect (startSession 0 initialState)).live =
      [⟨0, TimerKind.initialTimeout⟩]) ∧
    ((fireKind TimerKind.initialTimeout
        (autoStopEffect (startSession 0 initialState))).isRunning = false) ∧
    ((fireKind TimerKind.initialTimeout
        (autoStopEffect (startSession 0 initialState))).phase = Phase.Inhale) ∧
    ((fireKind TimerKind.initialTimeout
        (autoStopEffect (startSession 0 initialState))).live =
      [⟨3, TimerKind.phaseTick⟩]) := by
  decide

/-- C10: start with a non-positive minute count enters Running with
duration ≤ 0 and elapsed 0, the auto-stop condition holds at once, so the
session is stopped by the effect before any elapsed-time tick, with Stats,
store and commit count unchanged. -/
theorem startSession_nonpositive (s : AppState) (m : Int) (h : m ≤ 0) :
    (startSession m s).isRunning = true ∧
    (startSession m s).duration ≤ 0 ∧
    (startSession m s).elapsedTime = 0 ∧
    ((startSession m s).elapsedTime : Int) ≥ (startSession m s).duration ∧
    (autoStopEffect (startSession m s)).isRunning = false ∧
    (autoStopEffect (startSession m s)).elapsedTime = 0 ∧
    (autoStopEffect (startSession m s)).stats = s.stats ∧
    (autoStopEffect (startSession m s)).store = s.store ∧
    (autoStopEffect (startSession m s)).commitCount = s.commitCount := by
  have hdur : m * 60 ≤ 0 := by omega
  refine ⟨by simp [startSession, setTimer], by simpa [startSession, setTimer] using hdur,
    by simp [startSession, setTimer], by simpa [startSession, setTimer] using hdur, ?_, ?_, ?_, ?_, ?_⟩ <;>
    simp [autoStopEffect, startSession, setTimer, stopSession, hdur]

/-- Witness for C10 at m = 0 from the freshly mounted state. -/
theorem startSession_nonpositive_witness :
    (0 : Int) ≤ 0 ∧
    (startSession 0 initialState).isRunning = true ∧
    (autoStopEffect (startSession 0 initialState)).isRunning = false ∧
    (autoStopEffect (startSession 0 initialState)).stats = initialState.stats :=
  ⟨le_refl 0, (startSession_nonpositive initialState 0 (by decide)).1,
    (startSession_nonpositive initialState 0 (by decide)).2.2.2.2.1,
    (startSession_nonpositive initialState 0 (by decide)).2.2.2.2.2.2.1⟩

end StopStart

section StatsStore

/-- C4 counterexample: a malformed persisted stats value is not recovered
to zero Stats — the startup load effect throws the JSON.parse exception
instead of returning Stats{sessions:0, totalCycles:0}. -/
theorem loadStats_malformed_throws :
    loadStats (some ParseOutcome.thrown) = LoadOutcome.threw ∧
    loadStats (some ParseOutcome.thrown) ≠
      LoadOutcome.statsState (statsToJson ⟨0, 0⟩) := by
  decide

/-- C4 amended: load returns zero-valued Stats when nothing is persisted;
but a malformed persisted value is not recovered — JSON.parse throws and
the exception escapes the load effect — and a parseable value is installed
as-is without validation (the serialized form of any Stats decodes back to
exactly that Stats). -/
theorem loadStats_spec :
    loadStats none = LoadOutcome.statsState (statsToJson ⟨0, 0⟩) ∧
    loadStats (some ParseOutcome.thrown) = LoadOutcome.threw ∧
    (∀ j : Json, loadStats (some (ParseOutcome.value j)) = LoadOutcome.statsState j) ∧
    (∀ st : Stats, jsonAsStats (statsToJson st) = some st) :=
  ⟨rfl, rfl, fun _ => rfl, fun _ => rfl⟩

/-- Folding user-level operations adds one session per completed session
and its cycle count to totalCycles; preference toggles change nothing in
Stats. -/
lemma runOps_stats (l : List UserOp) (s : AppState) :
    (runOps l s).stats =
      ⟨s.stats.sessions + (l.filterMap opCycles).length,
        s.stats.totalCycles + ((l.filterMap opCycles).sum : Int)⟩ := by
  induction l generalizing s with
  | nil =>
    rcases h : s.stats with ⟨a, b⟩
    simp [runOps, h]
  | cons op t ih =>
    cases op with
    | completeSession c =>
      have hstep :
          (applyOp (UserOp.completeSession c) s).stats =
            ⟨s.stats.sessions + 1, s.stats.totalCycles + (c : Int)⟩ := by
        simp [applyOp, midSession, stopSession, commitStats]
      have hrun : runOps (UserOp.completeSession c :: t) s =
          runOps t (applyOp (UserOp.completeSession c) s) := rfl
      rw [hrun, ih, hstep]
      simp only [opCycles, List.filterMap_cons, List.length_cons, List.sum_cons,
        Stats.mk.injEq]
      constructor <;> push_cast <;> ring
    | opToggleTheme =>
      have : (applyOp UserOp.opToggleTheme s).stats = s.stats := rfl
      rw [show runOps (UserOp.opToggleTheme :: t) s =
        runOps t (applyOp UserOp.opToggleTheme s) from rfl, ih, this]
      simp [opCycles]
    | opToggleLanguage =>
      have : (applyOp UserOp.opToggleLanguage s).stats = s.stats := rfl
      rw [show runOps (UserOp.opToggleLanguage :: t) s =
        runOps t (applyOp UserOp.opToggleLanguage s) from rfl, ih, this]
      simp [opCycles]
    | opToggleMute =>
      have : (applyOp UserOp.opToggleMute s).stats = s.stats := rfl
      rw [show runOps (UserOp.opToggleMute :: t) s =
        runOps t (applyOp UserOp.opToggleMute s) from rfl, ih, this]
      simp [opCycles]
    | opToggleGuided =>
      have : (applyOp UserOp.opToggleGuided s).stats = s.stats := rfl
      rw [show runOps (UserOp.opToggleGuided :: t) s =
        runOps t (applyOp UserOp.opToggleGuided s) from rfl, ih, this]
      simp [opCycles]

/-- C8: the Stats commit in stopSession adds its deltas (sessions+1,
totalCycles+cycleCount) to the current value and persists exactly the
committed value (a load right after the commit returns it, and the
serialized form decodes back to it); and any sequence of user operations
whose completed-session cycle counts are a permutation of [3, 5, 2],
arbitrarily interleaved with preference toggles, ends with
Stats{sessions:3, totalCycles:10} from a zeroed start. -/
theorem stats_commit_additive (s : AppState) (l : List UserOp)
    (h : 0 < s.elapsedTime)
    (hp : (l.filterMap opCycles).Perm [3, 5, 2]) :
    (stopSession s).stats =
      ⟨s.stats.sessions + 1, s.stats.totalCycles + (s.cycleCount : Int)⟩ ∧
    (stopSession s).store.statsCell =
      some (ParseOutcome.value (statsToJson (stopSession s).stats)) ∧
    loadStats (stopSession s).store.statsCell =
      LoadOutcome.statsState (statsToJson (stopSession s).stats) ∧
    jsonAsStats (statsToJson (stopSession s).stats) = some (stopSession s).stats ∧
    (runOps l initialState).stats = ⟨3, 10⟩ := by
  have hstats : (stopSession s).stats =
      ⟨s.stats.sessions + 1, s.stats.totalCycles + (s.cycleCount : Int)⟩ := by
    simp [stopSession, commitStats, h]
  have hcell : (stopSession s).store.statsCell =
      some (ParseOutcome.value (statsToJson (stopSession s).stats)) := by
    simp [stopSession, commitStats, h, statsToJson]
  refine ⟨hstats, hcell, ?_, rfl, ?_⟩
  · rw [hcell]
    rfl
  · rw [runOps_stats]
    have hlen : (l.filterMap opCycles).length = 3 := hp.length_eq
    have hsum : (l.filterMap opCycles).sum = 10 := by rw [hp.sum_eq]; rfl
    rw [hlen, hsum]
    rfl

/-- Witness for C8: stopping a concrete mid-session state with 4 cycles,
and the operation list completing sessions of 3, 5 and 2 cycles with a
theme toggle and a mute toggle interleaved. -/
theorem stats_commit_additive_witness :
    0 < (midSession 4 initialState).elapsedTime ∧
    (([UserOp.completeSession 3, UserOp.opToggleTheme, UserOp.completeSession 5,
        UserOp.opToggleMute, UserOp.completeSession 2].filterMap opCycles).Perm
      [3, 5, 2]) ∧
    (stopSession (midSession 4 initialState)).stats = ⟨1, 4⟩ ∧
    (runOps [UserOp.completeSession 3, UserOp.opToggleTheme, UserOp.completeSession 5,
        UserOp.opToggleMute, UserOp.completeSession 2] initialState).stats = ⟨3, 10⟩ := by
  refine ⟨by decide, by decide, ?_, ?_⟩
  · rw [(stats_commit_additive (midSession 4 initialState)
      [UserOp.completeSession 3, UserOp.opToggleTheme, UserOp.completeSession 5,
        UserOp.opToggleMute, UserOp.completeSession 2] (by decide) (by decide)).1]
    rfl
  · exact (stats_commit_additive (midSession 4 initialState)
      [UserOp.completeSession 3, UserOp.opToggleTheme, UserOp.completeSession 5,
        UserOp.opToggleMute, UserOp.completeSession 2] (by decide) (by decide)).2.2.2.2

end StatsStore

section FiveMinuteSession

/-- Running seconds composes: m+n seconds from second `sec` is m seconds
followed by n seconds from second `sec+m`. -/
lemma runFrom_add (m n sec : Nat) (s : AppState) :
    runFrom sec (m + n) s = runFrom (sec + m) n (runFrom sec m s) := by
  induction m generalizing sec s with
  | zero => simp [runFrom]
  | succ m ih =>
    rw [show m + 1 + n = (m + n) + 1 from by omega]
    show runFrom (sec + 1) (m + n) (secondBlock sec s) = _
    rw [ih]
    show _ = runFrom (sec + (m + 1)) n (runFrom (sec + 1) m (secondBlock sec s))
    congr 1
    omega

/-- A canonical 5-minute-session trace split at any point. -/
lemma sessionTrace_split (m : Int) (a b : Nat) (s : AppState) :
    sessionTrace m (a + b) s = runFrom (1 + a) b (sessionTrace m a s) := by
  unfold sessionTrace
  exact runFrom_add a b 1 _

set_option maxRecDepth 8000 in
/-- The first 150 seconds of the canonical 5-minute session reach the
closed-form mid-session state. -/
lemma trace_first_150 : sessionTrace 5 150 initialState = midState 150 := by decide

set_option maxRecDepth 8000 in
/-- Seconds 151-300 from the mid-session state: at second 300 the elapsed
tick triggers the auto-stop and the session ends in the stopped state. -/
lemma trace_second_150 : runFrom 151 150 (midState 150) = stoppedState := by decide

set_option maxRecDepth 8000 in
/-- Seconds 151-299 from the mid-session state stay mid-session. -/
lemma trace_to_299 : runFrom 151 149 (midState 150) = midState 299 := by decide

/-- Ten further seconds after the auto-stop change nothing: every timer is
cancelled, so every firing slot is a no-op. -/
lemma trace_after_stop : runFrom 301 10 stoppedState = stoppedState := by decide

/-- C5: the canonical session started with durationMinutes = 5 runs until
elapsedSeconds reaches 300 (at second 299 it is still running with no
commit), is then stopped automatically by the auto-stop effect evaluated
right after the elapsed-time tick updates elapsedSeconds, performs no
further phase advances afterwards (ten extra seconds leave the state
unchanged, with no live timer), and commits exactly one Stats update of
sessions+1 and totalCycles+cycleCount (18 cycles in 300 seconds). -/
theorem session_five_minute_autostop :
    (sessionTrace 5 300 initialState).isRunning = false ∧
    (sessionTrace 5 300 initialState).phase = Phase.Idle ∧
    (sessionTrace 5 300 initialState).stats = ⟨1, 18⟩ ∧
    (sessionTrace 5 300 initialState).commitCount = 1 ∧
    (sessionTrace 5 300 initialState).live = [] ∧
    sessionTrace 5 310 initialState = sessionTrace 5 300 initialState ∧
    (sessionTrace 5 299 initialState).isRunning = true ∧
    (sessionTrace 5 299 initialState).elapsedTime = 299 ∧
    (sessionTrace 5 299 initialState).commitCount = 0 := by
  have h300 : sessionTrace 5 300 initialState = stoppedState := by
    have h := sessionTrace_split 5 150 150 initialState
    rw [trace_first_150, trace_second_150] at h
    exact h
  have h299 : sessionTrace 5 299 initialState = midState 299 := by
    have h := sessionTrace_split 5 150 149 initialState
    rw [trace_first_150, trace_to_299] at h
    exact h
  have h310 : sessionTrace 5 310 initialState = stoppedState := by
    have h := sessionTrace_split 5 300 10 initialState
    rw [h300, trace_after_stop] at h
    exact h
  rw [h300, h299, h310]
  exact ⟨rfl, rfl, rfl, rfl, rfl, rfl, rfl, rfl, rfl⟩

end FiveMinuteSession

end BoxBreathing
